import Mathlib

/-!
Verification of the CS696A VIN-lookup repository.

The repository contains three revisions of a React component `VinLookupApp`
(the deployed `vin-lookup/src/VinLookupApp.jsx`, and two earlier revisions in
the unnamed parts) together with a small Express proxy (`part_000`).  The
definitions below are a shallow embedding of the code that the claims are
about:

* shared string helpers model the JavaScript string methods used
  (`trim`, `toUpperCase`, `toLowerCase`, `split` on the pattern
  matching runs of newline or comma characters);
* `isValidVin` embeds the validator shared verbatim by all revisions;
* namespace `VinLookupProxy` embeds `vin-lookup/src/VinLookupApp.jsx`
  (decode mapping, CSV batch pipeline, recall render);
* namespace `VinLookupFallback` embeds the fallback-capable revision in
  `src/unnamed/part_002` (`handleSubmit` with the byVin-then-YMM recall
  fallback chain), with the network abstracted as explicit
  request/response values and the issued recall requests recorded;
* namespace `VinApiServer` embeds the Express proxy in `src/unnamed/part_000`.

Network effects are modelled by passing each fetch site its response as a
`FetchResult` value (network failure, or an HTTP status with an optional
parsed JSON body, `none` standing for a body that is not valid JSON).
-/

/-- Whitespace stripped by JavaScript trim (the ASCII subset that can occur
in the inputs handled here). -/
def isSpaceChar (c : Char) : Bool :=
  c = ' ' || c = '\t' || c = '\n' || c = '\r' || c = '\x0b' || c = '\x0c'

/-- JavaScript trim on a character list: drop leading and trailing
whitespace characters. -/
def trimChars (s : List Char) : List Char :=
  ((s.dropWhile isSpaceChar).reverse.dropWhile isSpaceChar).reverse

/-- JavaScript trim on a string. -/
def jsTrim (s : String) : String :=
  String.mk (trimChars s.data)

/-- JavaScript toUpperCase (ASCII). -/
def jsUpper (s : String) : String :=
  String.mk (s.data.map Char.toUpper)

/-- JavaScript toLowerCase (ASCII). -/
def jsLower (s : String) : String :=
  String.mk (s.data.map Char.toLower)

/-- One character of the VIN alphabet `[A-HJ-NPR-Z0-9]` (no I, O, Q). -/
def isVinChar (c : Char) : Bool :=
  ('A' ≤ c && c ≤ 'H') || ('J' ≤ c && c ≤ 'N') || c = 'P' ||
    ('R' ≤ c && c ≤ 'Z') || ('0' ≤ c && c ≤ '9')

/-- `isValidVin` from `VinLookupApp.jsx` (identical in every revision):
normalize with `value.trim().toUpperCase()` and test the anchored regular
expression requiring exactly 17 characters of the restricted alphabet. -/
def isValidVin (value : String) : Bool :=
  let cleaned := jsUpper (jsTrim value)
  cleaned.length = 17 && cleaned.data.all isVinChar

/-- Prepend a character to the first piece of a split result (used to build
the pieces of a separator-run split front to back). -/
def consHead (c : Char) : List (List Char) → List (List Char)
  | [] => [[c]]
  | t :: ts => (c :: t) :: ts

/-- Worker for `splitRuns`.  The flag records whether the previous character
belonged to a separator run (so that a whole run produces a single cut, as
the one-or-more pattern in the JavaScript split does). -/
def splitRunsAux (sep : Char → Bool) : List Char → Bool → List (List Char)
  | [], _ => [[]]
  | c :: rest, inRun =>
    if sep c then
      if inRun then splitRunsAux sep rest true
      else [] :: splitRunsAux sep rest true
    else consHead c (splitRunsAux sep rest false)

/-- JavaScript split on a one-or-more character-class pattern: cut the
string at every maximal run of separator characters.  As in JavaScript, a
leading or trailing run produces an empty piece at that end. -/
def splitRuns (sep : Char → Bool) (s : List Char) : List (List Char) :=
  splitRunsAux sep s false

/-- A batch-separator character: newline or comma (the character class in
the split pattern of `handleCsvUpload`). -/
def isTokenSep (c : Char) : Bool :=
  c = '\n' || c = ','

/-- One element of the decode upstream `Results` array: a `Variable` name and
its `Value`.  `Value` is `none` when the JSON value is null. -/
structure ResultEntry where
  Variable : String
  Value : Option String
  deriving DecidableEq

/-- Parsed body of a decode upstream response.  `Results` is `none` when the
JSON object has no `Results` key (or it is null). -/
structure DecodeResponseBody where
  Results : Option (List ResultEntry)
  deriving DecidableEq

/-- `getVal` from `part_002` (named `extractField` in the other revisions):
find the first entry whose `Variable` equals the queried name and take its
`Value`; absent entries, null values and empty strings all fall through the
JavaScript or-else to the sentinel. -/
def getVal (results : List ResultEntry) (name : String) : String :=
  match results.find? (fun r => r.Variable == name) with
  | none => "N/A"
  | some r =>
    match r.Value with
    | none => "N/A"
    | some v => if v = "" then "N/A" else v

/-- `extractField` from `VinLookupApp.jsx`: the same lookup as `getVal`. -/
def extractField (results : List ResultEntry) (name : String) : String :=
  getVal results name

/-- The flat vehicle-attributes record built by the decode mapping. -/
structure VehicleAttributes where
  vin : String
  make : String
  model : String
  modelYear : String
  bodyClass : String
  engineCylinders : String
  engineDisplacement : String
  fuelTypePrimary : String
  plantCountry : String
  deriving DecidableEq

/-- Failure taxonomy of a fetch-and-parse step: transport failure, non-2xx
HTTP status, or a body that could not be parsed as JSON. -/
inductive FetchError where
  | network
  | upstreamStatus (code : Nat)
  | malformed
  deriving DecidableEq

/-- Outcome of one fetch: the promise rejects (network failure), or a
response arrives with an HTTP status and an optional parsed JSON body
(`none` when the body is not valid JSON, so that awaiting the json method
throws). -/
inductive FetchResult (α : Type) where
  | netFail
  | ok (status : Nat) (body : Option α)
  deriving DecidableEq

/-- JavaScript `res.ok`: status in the 2xx range. -/
def isOkStatus (status : Nat) : Bool :=
  200 ≤ status && status ≤ 299

/-- One recall campaign record as consumed from the recall upstream. -/
structure RecallRecord where
  NHTSACampaignNumber : String
  ReportReceivedDate : Option String
  Component : Option String
  Summary : Option String
  Consequence : Option String
  ManufacturerRecallNo : Option String
  RecallInitiator : Option String
  deriving DecidableEq

/-- Parsed body of a recall upstream response; `results` is `none` when the
JSON object has no lower-case `results` key. -/
structure RecallBody where
  results : Option (List RecallRecord)
  deriving DecidableEq

/-- Which parts of the recalls section are rendered for a given state:
the no-open-recalls line, the error line, and the recall list. -/
structure RecallRender where
  showNoRecalls : Bool
  showError : Bool
  showList : Bool
  deriving DecidableEq

namespace VinLookupProxy

/-- The response mapping inside `decodeVinFromApi` of `VinLookupApp.jsx`:
take `Results` (or the empty array), and extract each target field by its
exact variable name. -/
def decodeAttrs (vinValue : String) (body : DecodeResponseBody) : VehicleAttributes :=
  let results := body.Results.getD []
  { vin := vinValue
    make := extractField results "Make"
    model := extractField results "Model"
    modelYear := extractField results "Model Year"
    bodyClass := extractField results "Body Class"
    engineCylinders := extractField results "Engine Number of Cylinders"
    engineDisplacement := extractField results "Displacement (L)"
    fuelTypePrimary := extractField results "Fuel Type - Primary"
    plantCountry := extractField results "Plant Country" }

/-- `decodeVinFromApi` of `VinLookupApp.jsx`: fetch the decode upstream;
throw on a rejected fetch or a non-2xx status; await the JSON body (throwing
when it is not JSON); otherwise map it with `decodeAttrs`. -/
def decodeVinFromApi (vinValue : String) (resp : FetchResult DecodeResponseBody) :
    Except FetchError VehicleAttributes :=
  match resp with
  | .netFail => .error .network
  | .ok status body =>
    if isOkStatus status then
      match body with
      | none => .error .malformed
      | some b => .ok (decodeAttrs vinValue b)
    else .error (.upstreamStatus status)

/-- `rawTokens` of `handleCsvUpload`: split the file text on every maximal
run of newline or comma characters. -/
def rawTokens (text : String) : List String :=
  (splitRuns isTokenSep text.data).map String.mk

/-- `vins` of `handleCsvUpload`: trim and upper-case every raw token and
discard the empty ones. -/
def vins (text : String) : List String :=
  ((rawTokens text).map (fun t => jsUpper (jsTrim t))).filter
    (fun t => t.length > 0)

/-- `limitedVins` of `handleCsvUpload`: keep only the first 50 tokens. -/
def limitedVins (text : String) : List String :=
  (vins text).take 50

/-- `invalidVins` of `handleCsvUpload`: the capped tokens failing
validation. -/
def invalidVins (text : String) : List String :=
  (limitedVins text).filter (fun v => !(isValidVin v))

/-- `validVins` of `handleCsvUpload`: the capped tokens passing
validation; only these are handed to the decode client. -/
def validVins (text : String) : List String :=
  (limitedVins text).filter (fun v => isValidVin v)

/-- The aggregated invalid-token message of `handleCsvUpload`: at most five
examples joined by commas, with a trailing ellipsis when more than five
tokens were invalid. -/
def bulkInvalidMsg (text : String) : String :=
  "Some VINs are invalid: " ++ String.intercalate ", " ((invalidVins text).take 5) ++
    (if (invalidVins text).length > 5 then "..." else "")

/-- One row of the bulk results table (the four fields the table renders,
which are exactly the fields of the sentinel object). -/
structure BulkRow where
  vin : String
  make : String
  model : String
  modelYear : String
  deriving DecidableEq

/-- Project a decoded record onto the bulk-table fields. -/
def toBulkRow (a : VehicleAttributes) : BulkRow :=
  ⟨a.vin, a.make, a.model, a.modelYear⟩

/-- The per-item catch substitute of `handleCsvUpload`. -/
def sentinelRow (v : String) : BulkRow :=
  ⟨v, "Error", "-", "-"⟩

/-- The bulk decode fan-out of `handleCsvUpload`: decode every valid VIN,
catching a per-item failure and substituting the sentinel row.  The network
is abstracted by `net`, giving each VIN its decode response. -/
def bulkDecode (text : String) (net : String → FetchResult DecodeResponseBody) :
    List BulkRow :=
  (validVins text).map (fun v =>
    match decodeVinFromApi v (net v) with
    | .ok a => toBulkRow a
    | .error _ => sentinelRow v)

/-- The recalls section of `VinLookupApp.jsx` (the error line when
`recallError` is truthy; otherwise the no-recalls line for an empty list,
or the recall list). -/
def renderRecallSection (recalls : List RecallRecord) (recallError : String) :
    RecallRender :=
  { showNoRecalls := recallError == "" && recalls.length == 0
    showError := recallError != ""
    showList := recallError == "" && recalls.length != 0 }

end VinLookupProxy

namespace VinLookupFallback

/-- The response mapping inside `decodeVinFromApi` of `part_002` (this
revision queries the displacement under its long variable name). -/
def decodeAttrs (vinValue : String) (body : DecodeResponseBody) : VehicleAttributes :=
  let results := body.Results.getD []
  { vin := vinValue
    make := getVal results "Make"
    model := getVal results "Model"
    modelYear := getVal results "Model Year"
    bodyClass := getVal results "Body Class"
    engineCylinders := getVal results "Engine Number of Cylinders"
    engineDisplacement := getVal results "Displacement (in Liters)"
    fuelTypePrimary := getVal results "Fuel Type - Primary"
    plantCountry := getVal results "Plant Country" }

/-- `decodeVinFromApi` of `part_002`: throw on fetch rejection or non-2xx
status, then map the JSON body. -/
def decodeVinFromApi (vinValue : String) (resp : FetchResult DecodeResponseBody) :
    Except FetchError VehicleAttributes :=
  match resp with
  | .netFail => .error .network
  | .ok status body =>
    if isOkStatus status then
      match body with
      | none => .error .malformed
      | some b => .ok (decodeAttrs vinValue b)
    else .error (.upstreamStatus status)

/-- `fetchRecallsByVin` of `part_002`: throw on fetch rejection; throw an
error carrying the status on non-2xx; otherwise return the `results` array
or the empty array. -/
def fetchRecallsByVin (resp : FetchResult RecallBody) :
    Except FetchError (List RecallRecord) :=
  match resp with
  | .netFail => .error .network
  | .ok status body =>
    if isOkStatus status then
      match body with
      | none => .error .malformed
      | some b => .ok (b.results.getD [])
    else .error (.upstreamStatus status)

/-- `fetchRecallsByYMM` of `part_002`: identical response handling to
`fetchRecallsByVin` (the difference is the request, see `ymmRequest`). -/
def fetchRecallsByYMM (resp : FetchResult RecallBody) :
    Except FetchError (List RecallRecord) :=
  match resp with
  | .netFail => .error .network
  | .ok status body =>
    if isOkStatus status then
      match body with
      | none => .error .malformed
      | some b => .ok (b.results.getD [])
    else .error (.upstreamStatus status)

/-- A recall request as issued by `part_002`: by VIN, or by the
year-make-model triple carried in the query string. -/
inductive RecallRequest where
  | byVin (vin : String)
  | byYMM (make model modelYear : String)
  deriving DecidableEq

/-- The query built by `fetchRecallsByYMM`: make and model are lower-cased,
the year is passed through. -/
def ymmRequest (make model year : String) : RecallRequest :=
  .byYMM (jsLower make) (jsLower model) year

/-- The three upstream responses an invocation of `handleSubmit` can
consume, one per fetch site. -/
structure SubmitEnv where
  decodeResp : FetchResult DecodeResponseBody
  byVinResp : FetchResult RecallBody
  byYmmResp : FetchResult RecallBody

/-- The component state after `handleSubmit` settles, plus the list of
recall requests that were issued (in order). -/
structure SubmitState where
  error : String
  data : Option VehicleAttributes
  recalls : List RecallRecord
  recallError : String
  requests : List RecallRequest
  deriving DecidableEq

/-- `handleSubmit` of `part_002`: validate, decode, gate on the decoded
make/model/year, then try recalls by VIN and fall back to year/make/model;
both failing leaves the decoded data with only the recall-error set. -/
def handleSubmit (vin : String) (env : SubmitEnv) : SubmitState :=
  let cleanedVin := jsUpper (jsTrim vin)
  if isValidVin cleanedVin then
    match decodeVinFromApi cleanedVin env.decodeResp with
    | .error _ =>
      ⟨"Error looking up VIN details. Please try again.", none, [], "", []⟩
    | .ok decoded =>
      if decoded.make == "" || decoded.model == "" || decoded.modelYear == "" ||
          decoded.make == "N/A" || decoded.model == "N/A" then
        ⟨"", some decoded, [],
          "Missing make/model/year from decode; cannot load recalls.", []⟩
      else
        match fetchRecallsByVin env.byVinResp with
        | .ok recallList =>
          ⟨"", some decoded, recallList, "", [.byVin cleanedVin]⟩
        | .error _ =>
          match fetchRecallsByYMM env.byYmmResp with
          | .ok recallList =>
            ⟨"", some decoded, recallList, "",
              [.byVin cleanedVin,
                ymmRequest decoded.make decoded.model decoded.modelYear]⟩
          | .error _ =>
            ⟨"", some decoded, [],
              "Unable to load recalls (VIN and Year/Make/Model lookups failed).",
              [.byVin cleanedVin,
                ymmRequest decoded.make decoded.model decoded.modelYear]⟩
  else
    ⟨"Please enter a valid 17-character VIN (no I, O, or Q).", none, [], "", []⟩

/-- The recalls section of `part_002`: the no-recalls line when the list is
empty and no error is set; the error line when an error is set; the list
when it is non-empty. -/
def renderRecallSection (recalls : List RecallRecord) (recallError : String) :
    RecallRender :=
  { showNoRecalls := recalls.length == 0 && recallError == ""
    showError := recallError != ""
    showList := recalls.length != 0 }

end VinLookupFallback

namespace VinApiServer

/-- A response body the proxy can produce: its health object, one of its
own error objects, or a relayed upstream JSON body. -/
inductive ProxyBody where
  | okTrue
  | errorMsg (msg : String)
  | upstream (data : RecallBody)
  deriving DecidableEq

/-- The query parameters of a request to the recalls route. -/
structure RecallsQuery where
  vin : Option String
  make : Option String
  model : Option String
  year : Option String

/-- The health route of `part_000`. -/
def health : Nat × ProxyBody :=
  (200, .okTrue)

/-- The recalls route of `part_000`: read the vin query parameter (or the
empty string), trim and upper-case it; reject with 400 when it is empty;
otherwise fetch the upstream by VIN and relay its status and JSON body,
responding 500 when the fetch rejects or the body is not JSON. -/
def apiRecalls (q : RecallsQuery) (upstream : FetchResult RecallBody) :
    Nat × ProxyBody :=
  let vin := jsUpper (jsTrim (q.vin.getD ""))
  if vin == "" then
    (400, .errorMsg "vin query param is required")
  else
    match upstream with
    | .netFail => (500, .errorMsg "Failed to fetch recalls from NHTSA")
    | .ok status body =>
      match body with
      | none => (500, .errorMsg "Failed to fetch recalls from NHTSA")
      | some data => (status, .upstream data)

end VinApiServer

/-! ### Concrete data used by the counterexamples and witnesses -/

/-- A well-formed sample VIN (the one the specification uses). -/
def vin0 : String := "1HGCM82633A004352"

/-- A decode body carrying make, model and model year. -/
def bodyHonda : DecodeResponseBody :=
  ⟨some [⟨"Make", some "HONDA"⟩, ⟨"Model", some "ACCORD"⟩,
    ⟨"Model Year", some "2003"⟩]⟩

/-- The attributes decoded from `bodyHonda`. -/
def dHonda : VehicleAttributes :=
  ⟨vin0, "HONDA", "ACCORD", "2003", "N/A", "N/A", "N/A", "N/A", "N/A"⟩

/-- A decode body with an empty `Results` array: every field decodes to the
sentinel. -/
def bodyNA : DecodeResponseBody := ⟨some []⟩

/-- The attributes decoded from `bodyNA`. -/
def dNA : VehicleAttributes :=
  ⟨vin0, "N/A", "N/A", "N/A", "N/A", "N/A", "N/A", "N/A", "N/A"⟩

/-- An environment whose decode succeeds with only sentinel fields (recall
upstreams would succeed if they were consulted). -/
def envNA : VinLookupFallback.SubmitEnv :=
  ⟨.ok 200 (some bodyNA), .ok 200 (some ⟨some []⟩), .ok 200 (some ⟨some []⟩)⟩

/-- An environment where decode succeeds, recalls by VIN answer 400, and the
year-make-model fallback fails at the network level. -/
def envBothFail : VinLookupFallback.SubmitEnv :=
  ⟨.ok 200 (some bodyHonda), .ok 400 (some ⟨some []⟩), .netFail⟩

/-- An environment where decode succeeds and recalls by VIN succeed with an
empty list. -/
def envEmptyOk : VinLookupFallback.SubmitEnv :=
  ⟨.ok 200 (some bodyHonda), .ok 200 (some ⟨some []⟩), .ok 200 (some ⟨some []⟩)⟩

/-- An environment whose decode fetch rejects. -/
def envDecodeFail : VinLookupFallback.SubmitEnv :=
  ⟨.netFail, .ok 200 (some ⟨some []⟩), .ok 200 (some ⟨some []⟩)⟩

/-- A batch network where every decode responds 200 with `bodyHonda`. -/
def netHonda : String → FetchResult DecodeResponseBody :=
  fun _ => .ok 200 (some bodyHonda)

/-- A batch network where every decode fetch rejects. -/
def netDown : String → FetchResult DecodeResponseBody :=
  fun _ => .netFail

/-- The tokenizer example input from the specification. -/
def csvEx : String := "1M8GDM9AXKP042788,2FTRX18L1Ha,\n  3GCEC14X7YG"

/-- The batch-isolation example input from the specification. -/
def csvEx2 : String := "BADVIN,1HGCM82633A004352"

/-- Sixty pairwise-distinct syntactically valid VIN tokens, comma-separated
(the batch-cap scenario of the specification). -/
def text60 : String :=
  "AAAAAAAAAAAAAAAAA,AAAAAAAAAAAAAAAAB,AAAAAAAAAAAAAAAAC,AAAAAAAAAAAAAAAAD,AAAAAAAAAAAAAAAAE,AAAAAAAAAAAAAAAAF,AAAAAAAAAAAAAAAAG,AAAAAAAAAAAAAAAAH,AAAAAAAAAAAAAAAAJ,AAAAAAAAAAAAAAAAK,AAAAAAAAAAAAAAAAL,AAAAAAAAAAAAAAAAM,AAAAAAAAAAAAAAAAN,AAAAAAAAAAAAAAAAP,AAAAAAAAAAAAAAAAR,AAAAAAAAAAAAAAAAS,AAAAAAAAAAAAAAAAT,AAAAAAAAAAAAAAAAU,AAAAAAAAAAAAAAAAV,AAAAAAAAAAAAAAAAW,AAAAAAAAAAAAAAAAX,AAAAAAAAAAAAAAAAY,AAAAAAAAAAAAAAAAZ,AAAAAAAAAAAAAAAA0,AAAAAAAAAAAAAAAA1,AAAAAAAAAAAAAAAA2,AAAAAAAAAAAAAAAA3,AAAAAAAAAAAAAAAA4,AAAAAAAAAAAAAAAA5,AAAAAAAAAAAAAAAA6,AAAAAAAAAAAAAAAA7,AAAAAAAAAAAAAAAA8,AAAAAAAAAAAAAAAA9,BAAAAAAAAAAAAAAAA,BAAAAAAAAAAAAAAAB,BAAAAAAAAAAAAAAAC,BAAAAAAAAAAAAAAAD,BAAAAAAAAAAAAAAAE,BAAAAAAAAAAAAAAAF,BAAAAAAAAAAAAAAAG,BAAAAAAAAAAAAAAAH,BAAAAAAAAAAAAAAAJ,BAAAAAAAAAAAAAAAK,BAAAAAAAAAAAAAAAL,BAAAAAAAAAAAAAAAM,BAAAAAAAAAAAAAAAN,BAAAAAAAAAAAAAAAP,BAAAAAAAAAAAAAAAR,BAAAAAAAAAAAAAAAS,BAAAAAAAAAAAAAAAT,BAAAAAAAAAAAAAAAU,BAAAAAAAAAAAAAAAV,BAAAAAAAAAAAAAAAW,BAAAAAAAAAAAAAAAX,BAAAAAAAAAAAAAAAY,BAAAAAAAAAAAAAAAZ,BAAAAAAAAAAAAAAA0,BAAAAAAAAAAAAAAA1,BAAAAAAAAAAAAAAA2,BAAAAAAAAAAAAAAA3"

/-! ### Theorems -/

/-- Claim C3: `isValidVin` first trims and upper-cases its input; it succeeds
exactly when the normalized form has 17 characters all drawn from the
alphabet `[A-HJ-NPR-Z0-9]`; any normalized string containing I, O or Q, or of
length other than 17, is rejected.  The function is a total Lean function,
so determinism and totality (never throwing) hold by construction. -/
theorem isValidVin_spec (s : String) :
    (isValidVin s = true ↔
      ((jsUpper (jsTrim s)).length = 17 ∧
        ∀ c ∈ (jsUpper (jsTrim s)).data, isVinChar c = true)) ∧
    (∀ c ∈ (jsUpper (jsTrim s)).data,
      (c = 'I' ∨ c = 'O' ∨ c = 'Q') → isValidVin s = false) ∧
    ((jsUpper (jsTrim s)).length ≠ 17 → isValidVin s = false) := by
  refine ⟨?_, ?_, ?_⟩
  · simp only [isValidVin, Bool.and_eq_true, decide_eq_true_eq, List.all_eq_true]
  · intro c hc hioq
    have hbad : isVinChar c = false := by
      rcases hioq with h | h | h <;> subst h <;> rfl
    have hall : (jsUpper (jsTrim s)).data.all isVinChar = false := by
      rw [List.all_eq_false]
      exact ⟨c, hc, by simp [hbad]⟩
    simp [isValidVin, hall]
  · intro hlen
    simp [isValidVin, hlen]

/-- Witness for C3 at concrete inputs: a lower-case VIN with surrounding
blanks validates after normalization; a 17-character string containing I is
rejected; a short string is rejected. -/
theorem isValidVin_spec_witness :
    isValidVin " 1hgcm82633a004352 " = true ∧
    isValidVin "1HGCM82633A00435I" = false ∧
    isValidVin "ABC" = false := by
  refine ⟨?_, ?_, ?_⟩
  · exact (isValidVin_spec " 1hgcm82633a004352 ").1.mpr (by decide)
  · exact (isValidVin_spec "1HGCM82633A00435I").2.1 'I' (by decide) (Or.inl rfl)
  · exact (isValidVin_spec "ABC").2.2 (by decide)

/-! ### Branch lemmas for the fallback resolver -/

/-- An invalid VIN stops `handleSubmit` before any request. -/
theorem handleSubmit_invalid (vin : String) (env : VinLookupFallback.SubmitEnv)
    (hv : isValidVin (jsUpper (jsTrim vin)) = false) :
    VinLookupFallback.handleSubmit vin env =
      ⟨"Please enter a valid 17-character VIN (no I, O, or Q).", none, [], "", []⟩ := by
  simp [VinLookupFallback.handleSubmit, hv]

/-- A decode failure yields the decode-failure state with no recall
request. -/
theorem handleSubmit_decodeFail (vin : String) (env : VinLookupFallback.SubmitEnv)
    (e : FetchError)
    (hv : isValidVin (jsUpper (jsTrim vin)) = true)
    (hdec : VinLookupFallback.decodeVinFromApi (jsUpper (jsTrim vin)) env.decodeResp =
      .error e) :
    VinLookupFallback.handleSubmit vin env =
      ⟨"Error looking up VIN details. Please try again.", none, [], "", []⟩ := by
  simp [VinLookupFallback.handleSubmit, hv, hdec]

/-- When the decoded make/model/year fail the presence check, `handleSubmit`
returns the decoded data with the missing-attributes recall error and issues
no recall request. -/
theorem handleSubmit_gate (vin : String) (env : VinLookupFallback.SubmitEnv)
    (d : VehicleAttributes)
    (hv : isValidVin (jsUpper (jsTrim vin)) = true)
    (hdec : VinLookupFallback.decodeVinFromApi (jsUpper (jsTrim vin)) env.decodeResp = .ok d)
    (hgate : (d.make == "" || d.model == "" || d.modelYear == "" ||
        d.make == "N/A" || d.model == "N/A") = true) :
    VinLookupFallback.handleSubmit vin env =
      ⟨"", some d, [],
        "Missing make/model/year from decode; cannot load recalls.", []⟩ := by
  simp [VinLookupFallback.handleSubmit, hv, hdec, hgate]

/-- When recalls by VIN succeed, `handleSubmit` stops after that single
request. -/
theorem handleSubmit_byVinOk (vin : String) (env : VinLookupFallback.SubmitEnv)
    (d : VehicleAttributes) (l : List RecallRecord)
    (hv : isValidVin (jsUpper (jsTrim vin)) = true)
    (hdec : VinLookupFallback.decodeVinFromApi (jsUpper (jsTrim vin)) env.decodeResp = .ok d)
    (hgate : (d.make == "" || d.model == "" || d.modelYear == "" ||
        d.make == "N/A" || d.model == "N/A") = false)
    (hbv : VinLookupFallback.fetchRecallsByVin env.byVinResp = .ok l) :
    VinLookupFallback.handleSubmit vin env =
      ⟨"", some d, l, "", [.byVin (jsUpper (jsTrim vin))]⟩ := by
  simp [VinLookupFallback.handleSubmit, hv, hdec, hgate, hbv]

/-- When recalls by VIN fail and the fallback succeeds, `handleSubmit`
issues exactly the two requests and keeps the fallback result with no
error. -/
theorem handleSubmit_ymmOk (vin : String) (env : VinLookupFallback.SubmitEnv)
    (d : VehicleAttributes) (e : FetchError) (l : List RecallRecord)
    (hv : isValidVin (jsUpper (jsTrim vin)) = true)
    (hdec : VinLookupFallback.decodeVinFromApi (jsUpper (jsTrim vin)) env.decodeResp = .ok d)
    (hgate : (d.make == "" || d.model == "" || d.modelYear == "" ||
        d.make == "N/A" || d.model == "N/A") = false)
    (hbv : VinLookupFallback.fetchRecallsByVin env.byVinResp = .error e)
    (hym : VinLookupFallback.fetchRecallsByYMM env.byYmmResp = .ok l) :
    VinLookupFallback.handleSubmit vin env =
      ⟨"", some d, l, "",
        [.byVin (jsUpper (jsTrim vin)),
          VinLookupFallback.ymmRequest d.make d.model d.modelYear]⟩ := by
  simp [VinLookupFallback.handleSubmit, hv, hdec, hgate, hbv, hym]

/-- When both recall strategies fail, `handleSubmit` keeps the decoded data,
sets only the recall error, and has issued both requests. -/
theorem handleSubmit_bothFail (vin : String) (env : VinLookupFallback.SubmitEnv)
    (d : VehicleAttributes) (e e2 : FetchError)
    (hv : isValidVin (jsUpper (jsTrim vin)) = true)
    (hdec : VinLookupFallback.decodeVinFromApi (jsUpper (jsTrim vin)) env.decodeResp = .ok d)
    (hgate : (d.make == "" || d.model == "" || d.modelYear == "" ||
        d.make == "N/A" || d.model == "N/A") = false)
    (hbv : VinLookupFallback.fetchRecallsByVin env.byVinResp = .error e)
    (hym : VinLookupFallback.fetchRecallsByYMM env.byYmmResp = .error e2) :
    VinLookupFallback.handleSubmit vin env =
      ⟨"", some d, [],
        "Unable to load recalls (VIN and Year/Make/Model lookups failed).",
        [.byVin (jsUpper (jsTrim vin)),
          VinLookupFallback.ymmRequest d.make d.model d.modelYear]⟩ := by
  simp [VinLookupFallback.handleSubmit, hv, hdec, hgate, hbv, hym]

/-- Claim C10: in the fallback-capable resolver of `part_002`, when decode
succeeds but the decoded make or model is the sentinel or make, model or
year is empty, no recall request is issued at all (not even the byVin
attempt) and the outcome is the decoded attributes together with the
missing-attributes recall error. -/
theorem sentinel_gate (vin : String) (env : VinLookupFallback.SubmitEnv)
    (d : VehicleAttributes)
    (hv : isValidVin (jsUpper (jsTrim vin)) = true)
    (hdec : VinLookupFallback.decodeVinFromApi (jsUpper (jsTrim vin)) env.decodeResp = .ok d)
    (hgate : (d.make == "" || d.model == "" || d.modelYear == "" ||
        d.make == "N/A" || d.model == "N/A") = true) :
    (VinLookupFallback.handleSubmit vin env).requests = [] ∧
    VinLookupFallback.handleSubmit vin env =
      ⟨"", some d, [],
        "Missing make/model/year from decode; cannot load recalls.", []⟩ := by
  rw [handleSubmit_gate vin env d hv hdec hgate]
  exact ⟨rfl, rfl⟩

/-- Witness for C10: a concrete sentinel decode (empty `Results`) blocks all
recall requests. -/
theorem sentinel_gate_witness :
    (VinLookupFallback.handleSubmit vin0 envNA).requests = [] ∧
    VinLookupFallback.handleSubmit vin0 envNA =
      ⟨"", some dNA, [],
        "Missing make/model/year from decode; cannot load recalls.", []⟩ :=
  sentinel_gate vin0 envNA dNA (by decide) rfl (by decide)

/-- Counterexample to claim C1 as stated: with the concrete environment
`envNA` the decode succeeds (the state carries decoded data), yet no recall
request is issued, so the recall lookup does not attempt byVin for this VIN
whose decode succeeded (the sentinel gate of `part_002` runs first). -/
theorem recall_fallback_cex :
    (VinLookupFallback.handleSubmit vin0 envNA).data.isSome = true ∧
    (VinLookupFallback.handleSubmit vin0 envNA).requests = [] := by
  decide

/-- Claim C1 (amended): for every VIN whose decode succeeded and whose
decoded make, model and year pass the presence check of `part_002`
(non-empty, and make/model not the sentinel), the recall lookup attempts
byVin first; if byVin succeeds no other request is issued; if byVin fails
with any error, byYearMakeModel is attempted exactly once using the decoded
make, model and year (make and model lower-cased as the query is built); if
byYearMakeModel also fails, the outcome keeps the decoded data with an empty
top-level error and carries the single recall-error message — never a
failure, and never a silent zero-recall report (the recall error is set
alongside the empty list). -/
theorem recall_fallback (vin : String) (env : VinLookupFallback.SubmitEnv)
    (d : VehicleAttributes)
    (hv : isValidVin (jsUpper (jsTrim vin)) = true)
    (hdec : VinLookupFallback.decodeVinFromApi (jsUpper (jsTrim vin)) env.decodeResp = .ok d)
    (hgate : (d.make == "" || d.model == "" || d.modelYear == "" ||
        d.make == "N/A" || d.model == "N/A") = false) :
    ((VinLookupFallback.handleSubmit vin env).requests.head? =
      some (.byVin (jsUpper (jsTrim vin)))) ∧
    (∀ l, VinLookupFallback.fetchRecallsByVin env.byVinResp = .ok l →
      VinLookupFallback.handleSubmit vin env =
        ⟨"", some d, l, "", [.byVin (jsUpper (jsTrim vin))]⟩) ∧
    (∀ e, VinLookupFallback.fetchRecallsByVin env.byVinResp = .error e →
      ((VinLookupFallback.handleSubmit vin env).requests =
        [.byVin (jsUpper (jsTrim vin)),
          VinLookupFallback.ymmRequest d.make d.model d.modelYear]) ∧
      (∀ e2, VinLookupFallback.fetchRecallsByYMM env.byYmmResp = .error e2 →
        VinLookupFallback.handleSubmit vin env =
          ⟨"", some d, [],
            "Unable to load recalls (VIN and Year/Make/Model lookups failed).",
            [.byVin (jsUpper (jsTrim vin)),
              VinLookupFallback.ymmRequest d.make d.model d.modelYear]⟩)) := by
  refine ⟨?_, ?_, ?_⟩
  · cases hbv : VinLookupFallback.fetchRecallsByVin env.byVinResp with
    | ok l => rw [handleSubmit_byVinOk vin env d l hv hdec hgate hbv]; rfl
    | error e =>
      cases hym : VinLookupFallback.fetchRecallsByYMM env.byYmmResp with
      | ok l => rw [handleSubmit_ymmOk vin env d e l hv hdec hgate hbv hym]; rfl
      | error e2 => rw [handleSubmit_bothFail vin env d e e2 hv hdec hgate hbv hym]; rfl
  · intro l hbv
    exact handleSubmit_byVinOk vin env d l hv hdec hgate hbv
  · intro e hbv
    refine ⟨?_, ?_⟩
    · cases hym : VinLookupFallback.fetchRecallsByYMM env.byYmmResp with
      | ok l => rw [handleSubmit_ymmOk vin env d e l hv hdec hgate hbv hym]
      | error e2 => rw [handleSubmit_bothFail vin env d e e2 hv hdec hgate hbv hym]
    · intro e2 hym
      exact handleSubmit_bothFail vin env d e e2 hv hdec hgate hbv hym

/-- Witness for the amended C1: decode succeeds with make HONDA, recalls by
VIN answer 400, the year-make-model fallback fails at the network level;
exactly the two requests are issued (the second with the lower-cased decoded
attributes) and the outcome keeps the data with only the recall error. -/
theorem recall_fallback_witness :
    (VinLookupFallback.handleSubmit vin0 envBothFail).requests =
      [.byVin vin0, .byYMM "honda" "accord" "2003"] ∧
    VinLookupFallback.handleSubmit vin0 envBothFail =
      ⟨"", some dHonda, [],
        "Unable to load recalls (VIN and Year/Make/Model lookups failed).",
        [.byVin vin0, .byYMM "honda" "accord" "2003"]⟩ := by
  have h := recall_fallback vin0 envBothFail dHonda (by decide) rfl (by decide)
  have h2 := h.2.2 (.upstreamStatus 400) rfl
  exact ⟨h2.1.trans (by decide), (h2.2 .network rfl).trans (by decide)⟩

/-- Claim C2: the three outcomes of a single-VIN resolution — an empty
recall list from a successful lookup, a failed recall lookup, and a decode
failure — are pairwise distinguishable.  An empty list from a successful
call renders as the no-open-recalls line and never as an error, a failed
lookup renders as the error line and never as the no-recalls line (in both
the `part_002` and the `VinLookupApp.jsx` recall sections), and a decode
failure leaves no decoded data (so no vehicle panel and no recalls section
is rendered) with the top-level error set. -/
theorem tri_state (vin : String) (d : VehicleAttributes)
    (env1 env2 env3 : VinLookupFallback.SubmitEnv)
    (hv : isValidVin (jsUpper (jsTrim vin)) = true)
    (hgate : (d.make == "" || d.model == "" || d.modelYear == "" ||
        d.make == "N/A" || d.model == "N/A") = false)
    (h1d : VinLookupFallback.decodeVinFromApi (jsUpper (jsTrim vin)) env1.decodeResp = .ok d)
    (h1r : VinLookupFallback.fetchRecallsByVin env1.byVinResp = .ok [])
    (h2d : VinLookupFallback.decodeVinFromApi (jsUpper (jsTrim vin)) env2.decodeResp = .ok d)
    (e2v e2y : FetchError)
    (h2v : VinLookupFallback.fetchRecallsByVin env2.byVinResp = .error e2v)
    (h2y : VinLookupFallback.fetchRecallsByYMM env2.byYmmResp = .error e2y)
    (e3 : FetchError)
    (h3d : VinLookupFallback.decodeVinFromApi (jsUpper (jsTrim vin)) env3.decodeResp = .error e3) :
    ((VinLookupFallback.handleSubmit vin env1).data = some d ∧
      (VinLookupFallback.handleSubmit vin env1).recalls = [] ∧
      (VinLookupFallback.handleSubmit vin env1).recallError = "" ∧
      VinLookupFallback.renderRecallSection
        (VinLookupFallback.handleSubmit vin env1).recalls
        (VinLookupFallback.handleSubmit vin env1).recallError = ⟨true, false, false⟩ ∧
      VinLookupProxy.renderRecallSection
        (VinLookupFallback.handleSubmit vin env1).recalls
        (VinLookupFallback.handleSubmit vin env1).recallError = ⟨true, false, false⟩) ∧
    ((VinLookupFallback.handleSubmit vin env2).data = some d ∧
      (VinLookupFallback.handleSubmit vin env2).recallError ≠ "" ∧
      VinLookupFallback.renderRecallSection
        (VinLookupFallback.handleSubmit vin env2).recalls
        (VinLookupFallback.handleSubmit vin env2).recallError = ⟨false, true, false⟩ ∧
      VinLookupProxy.renderRecallSection
        (VinLookupFallback.handleSubmit vin env2).recalls
        (VinLookupFallback.handleSubmit vin env2).recallError = ⟨false, true, false⟩) ∧
    ((VinLookupFallback.handleSubmit vin env3).data = none ∧
      (VinLookupFallback.handleSubmit vin env3).error ≠ "") ∧
    (VinLookupFallback.renderRecallSection
        (VinLookupFallback.handleSubmit vin env1).recalls
        (VinLookupFallback.handleSubmit vin env1).recallError ≠
      VinLookupFallback.renderRecallSection
        (VinLookupFallback.handleSubmit vin env2).recalls
        (VinLookupFallback.handleSubmit vin env2).recallError) ∧
    ((VinLookupFallback.handleSubmit vin env1).data ≠
      (VinLookupFallback.handleSubmit vin env3).data) ∧
    ((VinLookupFallback.handleSubmit vin env2).data ≠
      (VinLookupFallback.handleSubmit vin env3).data) := by
  have hs1 := handleSubmit_byVinOk vin env1 d [] hv h1d hgate h1r
  have hs2 := handleSubmit_bothFail vin env2 d e2v e2y hv h2d hgate h2v h2y
  have hs3 := handleSubmit_decodeFail vin env3 e3 hv h3d
  rw [hs1, hs2, hs3]
  refine ⟨⟨rfl, rfl, rfl, rfl, rfl⟩, ⟨rfl, ?_, rfl, rfl⟩,
    ⟨rfl, by decide⟩, ?_, by simp, by simp⟩
  · show ("Unable to load recalls (VIN and Year/Make/Model lookups failed)." : String) ≠ ""
    decide
  · show VinLookupFallback.renderRecallSection [] "" ≠
      VinLookupFallback.renderRecallSection []
        "Unable to load recalls (VIN and Year/Make/Model lookups failed)."
    decide

/-- Witness for C2: concrete environments realizing the three outcomes for
the same VIN and the same decoded record. -/
theorem tri_state_witness :
    (VinLookupFallback.handleSubmit vin0 envEmptyOk).recalls = [] ∧
    (VinLookupFallback.handleSubmit vin0 envEmptyOk).recallError = "" ∧
    VinLookupFallback.renderRecallSection
      (VinLookupFallback.handleSubmit vin0 envEmptyOk).recalls
      (VinLookupFallback.handleSubmit vin0 envEmptyOk).recallError = ⟨true, false, false⟩ ∧
    (VinLookupFallback.handleSubmit vin0 envBothFail).recallError ≠ "" ∧
    VinLookupFallback.renderRecallSection
      (VinLookupFallback.handleSubmit vin0 envBothFail).recalls
      (VinLookupFallback.handleSubmit vin0 envBothFail).recallError = ⟨false, true, false⟩ ∧
    (VinLookupFallback.handleSubmit vin0 envDecodeFail).data = none ∧
    (VinLookupFallback.handleSubmit vin0 envDecodeFail).error ≠ "" := by
  have h := tri_state vin0 dHonda envEmptyOk envBothFail envDecodeFail
    (by decide) (by decide) rfl rfl rfl (.upstreamStatus 400) .network rfl rfl
    .network rfl
  exact ⟨h.1.2.1, h.1.2.2.1, h.1.2.2.2.1, h.2.1.2.1, h.2.1.2.2.1,
    h.2.2.1.1, h.2.2.1.2⟩

/-! ### Tokenizer lemmas -/

/-- Membership in `consHead`: the piece is either the singleton made of the
new character (when there was no piece yet), or the extended first piece, or
an untouched later piece. -/
theorem mem_consHead {c : Char} {L : List (List Char)} {p : List Char}
    (hp : p ∈ consHead c L) :
    (L = [] ∧ p = [c]) ∨ ∃ t ts, L = t :: ts ∧ (p = c :: t ∨ p ∈ ts) := by
  cases L with
  | nil =>
    left
    exact ⟨rfl, by simpa [consHead] using hp⟩
  | cons t ts =>
    right
    refine ⟨t, ts, rfl, ?_⟩
    simpa [consHead] using hp

/-- No piece produced by the separator-run split contains a separator
character. -/
theorem splitRunsAux_no_sep (sep : Char → Bool) :
    ∀ (s : List Char) (flag : Bool) (p : List Char),
      p ∈ splitRunsAux sep s flag → ∀ c ∈ p, sep c = false := by
  intro s
  induction s with
  | nil =>
    intro flag p hp c hc
    simp only [splitRunsAux, List.mem_singleton] at hp
    subst hp
    simp at hc
  | cons a rest ih =>
    intro flag p hp c hc
    by_cases ha : sep a = true
    · cases flag with
      | true =>
        simp only [splitRunsAux, ha, if_true] at hp
        exact ih true p hp c hc
      | false =>
        simp only [splitRunsAux, ha, if_true] at hp
        rcases List.mem_cons.mp hp with h | h
        · subst h
          simp at hc
        · exact ih true p h c hc
    · have ha2 : sep a = false := by simpa using ha
      simp only [splitRunsAux, ha2, Bool.false_eq_true, if_false] at hp
      rcases mem_consHead hp with ⟨_, hpa⟩ | ⟨t, ts, hL, hpt⟩
      · subst hpa
        rcases List.mem_singleton.mp hc with h2
        subst h2
        exact ha2
      · rcases hpt with h | h
        · subst h
          rcases List.mem_cons.mp hc with h2 | h2
          · subst h2
            exact ha2
          · exact ih false t (by rw [hL]; exact List.mem_cons_self t ts) c h2
        · exact ih false p (by rw [hL]; exact List.mem_cons_of_mem t h) c hc

/-- Claim C7: the batch tokenizer splits the raw text on every maximal run
of newline or comma characters (so no token piece retains a separator),
trims and upper-cases each piece, and discards empty results; on the
specification example it yields exactly the three expected tokens, with the
whitespace-only normalization applied. -/
theorem tokenizer_spec :
    (VinLookupProxy.vins csvEx =
      ["1M8GDM9AXKP042788", "2FTRX18L1HA", "3GCEC14X7YG"]) ∧
    (∀ text t, t ∈ VinLookupProxy.vins text → t ≠ "") ∧
    (∀ text t, t ∈ VinLookupProxy.vins text →
      ∃ r ∈ VinLookupProxy.rawTokens text, t = jsUpper (jsTrim r)) ∧
    (∀ text r, r ∈ VinLookupProxy.rawTokens text →
      ∀ c ∈ r.data, isTokenSep c = false) := by
  refine ⟨by decide, ?_, ?_, ?_⟩
  · intro text t ht
    have h := (List.mem_filter.mp ht).2
    intro he
    subst he
    simp at h
  · intro text t ht
    have h1 := (List.mem_filter.mp ht).1
    rcases List.mem_map.mp h1 with ⟨r, hr, he⟩
    exact ⟨r, hr, he.symm⟩
  · intro text r hr c hc
    rcases List.mem_map.mp hr with ⟨p, hp, he⟩
    have hcp : c ∈ p := by
      rw [← he] at hc
      exact hc
    exact splitRunsAux_no_sep isTokenSep text.data false p hp c hcp

/-- Witness for C7: the concrete example tokenizes to the three expected
tokens, and a concrete token of it is non-empty. -/
theorem tokenizer_spec_witness :
    VinLookupProxy.vins csvEx =
      ["1M8GDM9AXKP042788", "2FTRX18L1HA", "3GCEC14X7YG"] ∧
    ("2FTRX18L1HA" : String) ≠ "" :=
  ⟨tokenizer_spec.1, tokenizer_spec.2.1 csvEx "2FTRX18L1HA" (by decide)⟩

/-- Claim C4: after tokenizing and discarding empty tokens, only the first
50 tokens are considered — the set of VINs handed to the decode fan-out
factors through taking the first 50 tokens, before any decode request
exists, and is never longer than 50; with 60 distinct valid tokens, exactly
the first 50 are submitted and each of the remaining 10 is never decoded
(it is not among the submitted VINs, which are exactly the inputs the bulk
fan-out consults the network for). -/
theorem batch_cap (text : String) :
    ((VinLookupProxy.validVins text).length ≤ 50) ∧
    (∀ v ∈ VinLookupProxy.validVins text, v ∈ (VinLookupProxy.vins text).take 50) ∧
    (VinLookupProxy.validVins text =
      ((VinLookupProxy.vins text).take 50).filter (fun v => isValidVin v)) ∧
    (∀ net, (VinLookupProxy.bulkDecode text net).length ≤ 50) ∧
    ((∀ v ∈ VinLookupProxy.vins text, isValidVin v = true) →
      (VinLookupProxy.vins text).length = 60 →
      (VinLookupProxy.vins text).Nodup →
      VinLookupProxy.validVins text = (VinLookupProxy.vins text).take 50 ∧
      (VinLookupProxy.validVins text).length = 50 ∧
      ∀ v ∈ (VinLookupProxy.vins text).drop 50, v ∉ VinLookupProxy.validVins text) := by
  have hlen : (VinLookupProxy.validVins text).length ≤ 50 := by
    calc (VinLookupProxy.validVins text).length
        ≤ (VinLookupProxy.limitedVins text).length := List.length_filter_le _ _
      _ ≤ 50 := by
          rw [VinLookupProxy.limitedVins, List.length_take]
          exact Nat.min_le_left _ _
  refine ⟨hlen, ?_, rfl, ?_, ?_⟩
  · intro v hv
    exact (List.mem_filter.mp hv).1
  · intro net
    rw [VinLookupProxy.bulkDecode, List.length_map]
    exact hlen
  · intro hall h60 hnd
    have hfilter : VinLookupProxy.validVins text = (VinLookupProxy.vins text).take 50 := by
      rw [VinLookupProxy.validVins, VinLookupProxy.limitedVins]
      refine List.filter_eq_self.mpr ?_
      intro v hv
      exact hall v (List.mem_of_mem_take hv)
    refine ⟨hfilter, ?_, ?_⟩
    · rw [hfilter, List.length_take, h60]
      decide
    · intro v hvdrop hvval
      rw [hfilter] at hvval
      have hdisj : ((VinLookupProxy.vins text).take 50).Disjoint
          ((VinLookupProxy.vins text).drop 50) := by
        have h := hnd
        rw [← List.take_append_drop 50 (VinLookupProxy.vins text)] at h
        exact (List.nodup_append.mp h).2.2
      exact hdisj hvval hvdrop

/-- Witness for C4: on the concrete 60-token input, exactly the first 50
tokens are submitted. -/
theorem batch_cap_witness :
    VinLookupProxy.validVins text60 = (VinLookupProxy.vins text60).take 50 ∧
    (VinLookupProxy.validVins text60).length = 50 := by
  have h := (batch_cap text60).2.2.2.2 (by decide) (by decide) (by decide)
  exact ⟨h.1, h.2.1⟩

/-- Claim C5: in the batch pipeline, invalid tokens yield one aggregated
message with at most five examples and a trailing ellipsis exactly when more
than five are invalid, and they do not block decoding of the valid tokens;
the result list always has one row per valid VIN (the batch never fails),
with a failing decode replaced by the sentinel row in that VIN's position
and a succeeding decode kept in its position; the mixed example input yields
one invalid-token report and one decode result. -/
theorem batch_isolation (text : String)
    (net : String → FetchResult DecodeResponseBody) :
    ((VinLookupProxy.bulkDecode text net).length =
      (VinLookupProxy.validVins text).length) ∧
    (∀ i (h : i < (VinLookupProxy.validVins text).length) e,
      VinLookupProxy.decodeVinFromApi ((VinLookupProxy.validVins text).get ⟨i, h⟩)
          (net ((VinLookupProxy.validVins text).get ⟨i, h⟩)) = .error e →
      (VinLookupProxy.bulkDecode text net).get? i =
        some (VinLookupProxy.sentinelRow ((VinLookupProxy.validVins text).get ⟨i, h⟩))) ∧
    (∀ i (h : i < (VinLookupProxy.validVins text).length) a,
      VinLookupProxy.decodeVinFromApi ((VinLookupProxy.validVins text).get ⟨i, h⟩)
          (net ((VinLookupProxy.validVins text).get ⟨i, h⟩)) = .ok a →
      (VinLookupProxy.bulkDecode text net).get? i =
        some (VinLookupProxy.toBulkRow a)) ∧
    (((VinLookupProxy.invalidVins text).take 5).length ≤ 5) ∧
    ((VinLookupProxy.invalidVins text).length > 5 →
      VinLookupProxy.bulkInvalidMsg text =
        "Some VINs are invalid: " ++
          String.intercalate ", " ((VinLookupProxy.invalidVins text).take 5) ++ "...") ∧
    (¬ (VinLookupProxy.invalidVins text).length > 5 →
      VinLookupProxy.bulkInvalidMsg text =
        "Some VINs are invalid: " ++
          String.intercalate ", " ((VinLookupProxy.invalidVins text).take 5)) ∧
    (VinLookupProxy.invalidVins csvEx2 = ["BADVIN"]) ∧
    (VinLookupProxy.validVins csvEx2 = ["1HGCM82633A004352"]) ∧
    (∀ a, VinLookupProxy.decodeVinFromApi "1HGCM82633A004352"
        (net "1HGCM82633A004352") = .ok a →
      VinLookupProxy.bulkDecode csvEx2 net = [VinLookupProxy.toBulkRow a]) := by
  refine ⟨?_, ?_, ?_, ?_, ?_, ?_, by decide, by decide, ?_⟩
  · rw [VinLookupProxy.bulkDecode, List.length_map]
  · intro i h e he
    rw [List.get_eq_getElem] at he
    rw [VinLookupProxy.bulkDecode, List.get?_map, List.get?_eq_get h]
    simp [he]
  · intro i h a ha
    rw [List.get_eq_getElem] at ha
    rw [VinLookupProxy.bulkDecode, List.get?_map, List.get?_eq_get h]
    simp [ha]
  · exact List.length_take_le 5 _
  · intro hgt
    rw [VinLookupProxy.bulkInvalidMsg, if_pos hgt]
  · intro hle
    rw [VinLookupProxy.bulkInvalidMsg, if_neg hle]
    simp
  · intro a ha
    have hv : VinLookupProxy.validVins csvEx2 = ["1HGCM82633A004352"] := by decide
    rw [VinLookupProxy.bulkDecode, hv]
    simp [ha]

/-- Witness for C5: on the mixed example, an all-failing network yields the
sentinel row in the valid VIN's position, an all-succeeding network yields
the decoded row, and the aggregated invalid message lists the single bad
token. -/
theorem batch_isolation_witness :
    VinLookupProxy.bulkDecode csvEx2 netHonda = [VinLookupProxy.toBulkRow dHonda] ∧
    (VinLookupProxy.bulkDecode csvEx2 netDown).get? 0 =
      some (VinLookupProxy.sentinelRow "1HGCM82633A004352") ∧
    VinLookupProxy.bulkInvalidMsg csvEx2 = "Some VINs are invalid: BADVIN" := by
  have h1 := batch_isolation csvEx2 netHonda
  have h2 := batch_isolation csvEx2 netDown
  refine ⟨h1.2.2.2.2.2.2.2.2 dHonda rfl, ?_, ?_⟩
  · have hb := h2.2.1 0 (by decide) .network rfl
    rw [hb]
    decide
  · exact (h1.2.2.2.2.2.1 (by decide)).trans (by decide)

/-- Counterexample to claim C6 as stated: the concrete response body whose
`Results` array is exactly one entry `Make` carrying the upstream value `""`
lacks an entry for the queried variable `Model`, so the claim applies; the
missing field does map to the sentinel, but the matched `Make` field does
not keep its upstream value — the extraction maps the empty upstream value
to the sentinel as well (so the sentinel is also not returned for exactly
the missing field). -/
theorem decode_tolerance_cex :
    (([⟨"Make", some ""⟩] : List ResultEntry).find?
      (fun r => r.Variable == "Model") = none) ∧
    (VinLookupProxy.decodeAttrs vin0 ⟨some [⟨"Make", some ""⟩]⟩).model = "N/A" ∧
    (([⟨"Make", some ""⟩] : List ResultEntry).find?
      (fun r => r.Variable == "Make") = some ⟨"Make", some ""⟩) ∧
    (VinLookupProxy.decodeAttrs vin0 ⟨some [⟨"Make", some ""⟩]⟩).make = "N/A" ∧
    (VinLookupProxy.decodeAttrs vin0 ⟨some [⟨"Make", some ""⟩]⟩).make ≠ "" := by
  refine ⟨rfl, rfl, rfl, rfl, by decide⟩

/-- Claim C6 (amended): for every decode response lacking an entry for a
queried variable name, the extraction returns the sentinel for that field
and never throws (it is a total function), a missing field never fails the
whole decode (each record field is an independent extraction), and every
matched field whose upstream `Value` is non-null and non-empty keeps its
upstream value. -/
theorem decode_tolerance (results : List ResultEntry) (name : String) :
    (results.find? (fun r => r.Variable == name) = none →
      getVal results name = "N/A") ∧
    (∀ r v, results.find? (fun r2 => r2.Variable == name) = some r →
      r.Value = some v → v ≠ "" → getVal results name = v) ∧
    (∀ vinValue body,
      (VinLookupProxy.decodeAttrs vinValue body).model =
        extractField (body.Results.getD []) "Model" ∧
      (VinLookupProxy.decodeAttrs vinValue body).make =
        extractField (body.Results.getD []) "Make" ∧
      (VinLookupFallback.decodeAttrs vinValue body).model =
        getVal (body.Results.getD []) "Model") := by
  refine ⟨?_, ?_, ?_⟩
  · intro h
    rw [getVal, h]
  · intro r v hfind hval hne
    rw [getVal, hfind]
    simp [hval, hne]
  · intro vinValue body
    exact ⟨rfl, rfl, rfl⟩

/-- Witness for the amended C6: a matched field with a real value is kept,
and a missing field maps to the sentinel. -/
theorem decode_tolerance_witness :
    getVal [⟨"Make", some "HONDA"⟩] "Make" = "HONDA" ∧
    getVal [⟨"Make", some "HONDA"⟩] "Model" = "N/A" := by
  refine ⟨?_, ?_⟩
  · exact (decode_tolerance [⟨"Make", some "HONDA"⟩] "Make").2.1
      ⟨"Make", some "HONDA"⟩ "HONDA" rfl rfl (by decide)
  · exact (decode_tolerance [⟨"Make", some "HONDA"⟩] "Model").1 rfl

/-- Claim C9: the decode response mapping is total over parsed JSON bodies —
every 2xx response with a parsed body maps to a success (never a
malformed-response error), a body with no `Results` key decodes to the
all-sentinel record, and an entry whose `Value` is null or the empty string
maps to the sentinel exactly as an absent entry does. -/
theorem decode_total (vinValue : String) (status : Nat) (b : DecodeResponseBody)
    (hs : isOkStatus status = true) :
    (VinLookupProxy.decodeVinFromApi vinValue (.ok status (some b)) =
      .ok (VinLookupProxy.decodeAttrs vinValue b)) ∧
    (b.Results = none → VinLookupProxy.decodeAttrs vinValue b =
      ⟨vinValue, "N/A", "N/A", "N/A", "N/A", "N/A", "N/A", "N/A", "N/A"⟩) ∧
    (∀ (entries : List ResultEntry) (name : String),
      getVal (⟨name, none⟩ :: entries) name = "N/A" ∧
      getVal (⟨name, some ""⟩ :: entries) name = "N/A" ∧
      getVal [] name = "N/A") := by
  refine ⟨?_, ?_, ?_⟩
  · rw [VinLookupProxy.decodeVinFromApi, hs]
    rfl
  · intro h
    rw [VinLookupProxy.decodeAttrs, h]
    rfl
  · intro entries name
    have hbeq : (name == name) = true := by simp
    refine ⟨?_, ?_, rfl⟩
    · have h1 : (⟨name, none⟩ :: entries).find? (fun r => r.Variable == name) =
          some ⟨name, none⟩ := List.find?_cons_of_pos _ hbeq
      rw [getVal, h1]
    · have h1 : (⟨name, some ""⟩ :: entries).find? (fun r => r.Variable == name) =
          some ⟨name, some ""⟩ := List.find?_cons_of_pos _ hbeq
      rw [getVal, h1]
      rfl

/-- Witness for C9: a 200 response whose body has no `Results` key decodes
to the all-sentinel record, and a null-valued entry maps to the sentinel. -/
theorem decode_total_witness :
    VinLookupProxy.decodeVinFromApi vin0 (.ok 200 (some ⟨none⟩)) = .ok dNA ∧
    getVal [⟨"Make", none⟩] "Make" = "N/A" := by
  have h := decode_total vin0 200 ⟨none⟩ (by decide)
  refine ⟨?_, (h.2.2 [] "Make").1⟩
  rw [h.1, h.2.1 rfl]
  rfl

/-- Claim C8 is the intended proxy contract; the code diverges on the
year-make-model form, which this theorem documents: a request carrying the
make, model and year parameters but no vin is rejected with the proxy's own
400 error for every upstream behaviour (so such queries are never
forwarded), while a request carrying a vin is forwarded and the upstream's
status and JSON body are relayed verbatim (every status, 2xx or not), and
the health route answers with its ok object. -/
theorem proxy_contract_bug :
    (∀ upstream : FetchResult RecallBody,
      VinApiServer.apiRecalls ⟨none, some "HONDA", some "ACCORD", some "2003"⟩ upstream =
        (400, VinApiServer.ProxyBody.errorMsg "vin query param is required")) ∧
    (∀ (status : Nat) (data : RecallBody),
      VinApiServer.apiRecalls ⟨some vin0, none, none, none⟩ (.ok status (some data)) =
        (status, VinApiServer.ProxyBody.upstream data)) ∧
    VinApiServer.health = (200, VinApiServer.ProxyBody.okTrue) :=
  ⟨fun _ => rfl, fun _ _ => rfl, rfl⟩
